import Mathlib

/-!
Verification of the Discord-to-ADK relay bot (src/run.py).

The embedding models the core of the program: the in-memory session registry
`user_sessions`, the Agent Client operations `create_adk_session` and
`send_query_to_adk`, and the per-message orchestrator `on_message`.

Network nondeterminism is made explicit: each HTTP round trip is represented by
an outcome value (`CreateOutcome`, `SendOutcome`) supplied as a parameter, and
the randomly generated session id (`uuid.uuid4()`) is supplied as the
`freshSessionId` field of the environment.  Outbound platform sends and Agent
Client invocations are recorded as traces (`replies`, `calls`) in the step
result, and the defensive fallback branch at lines 181-183 records its
execution in the `usedFallback` flag.
-/

namespace AdkRelay

/-- Static greeting for an empty message, run.py line 158. -/
def greetingText : String := "Hello! How can I help you today?"

/-- Reply when session creation fails, run.py line 178. -/
def createFailText : String := "Sorry, I couldn\x27t create a new support session. Please try again later."

/-- Defensive fallback reply, run.py line 182. -/
def sessionIssueText : String := "There was an issue with your session. Please try again."

/-- Apology reply on transport failure during send, run.py line 125. -/
def apologyText : String := "Oops. There was an error. Re-sending your question usually fixes it. (It\x27s a session management bug)."

/-- Reply when the response body fails to decode, run.py line 128. -/
def parseErrorText : String := "Sorry, I received an unexpected response from the support agent."

/-- Reply when no model-role text part is found, run.py line 121. -/
def noModelText : String := "Sorry, I couldn\x27t understand the response from the agent."

/-- One element of a turn content `parts` list; the `text` key is optional. -/
structure Part where
  text : Option String
  deriving Repr, DecidableEq

/-- The `content` object of a turn: optional `role`, `parts` defaulting to empty. -/
structure Content where
  role : Option String
  parts : List Part
  deriving Repr, DecidableEq

/-- One turn object of the backend response; `content` is optional. -/
structure Turn where
  content : Option Content
  deriving Repr, DecidableEq

/-- Python truthiness of a string: non-empty. -/
def truthyStr (s : String) : Bool := s != ""

/-- Python truthiness of an optional string (`None` is falsy, "" is falsy). -/
def truthyOpt : Option String → Bool
  | none => false
  | some s => truthyStr s

/-- Discord user identities are numeric (`message.author.id`). -/
abbrev UserId := Nat

/-- The in-memory `user_sessions` dict, run.py line 27: user id to session id. -/
abbrev Registry := List (UserId × String)

/-- `user_sessions.get(u)`. -/
def Registry.get (r : Registry) (u : UserId) : Option String := List.lookup u r

/-- `user_sessions[u] = s` (dict assignment: replace any previous binding). -/
def Registry.set (r : Registry) (u : UserId) (s : String) : Registry :=
  (u, s) :: r.filter (fun p => p.1 != u)

/-- `user_sessions.clear()`, run.py line 124. -/
def Registry.clear (_ : Registry) : Registry := ([] : Registry)

/-- The inner loop of run.py lines 118-120: first part carrying a `text` key. -/
def firstTextPart : List Part → Option String
  | [] => none
  | p :: ps =>
    match p.text with
    | some t => some t
    | none => firstTextPart ps

/-- The condition of run.py line 116: the turn has content whose role is "model". -/
def turnIsModel (t : Turn) : Bool :=
  match t.content with
  | some c => c.role == some "model"
  | none => false

/-- The `parts` list of a turn, defaulting to empty (run.py line 117). -/
def turnParts (t : Turn) : List Part :=
  match t.content with
  | some c => c.parts
  | none => []

/-- The scan loop of run.py lines 115-120, iterating in the given order.  The
caller passes the reversed turn list, matching `reversed(response_data)`.  A
model-role turn with no text part does not stop the scan: the outer loop
continues with the next (older) turn. -/
def scanTurns : List Turn → Option String
  | [] => none
  | t :: ts =>
    if turnIsModel t then
      match firstTextPart (turnParts t) with
      | some s => some s
      | none => scanTurns ts
    else scanTurns ts

/-- Outcome of the `/run` HTTP round trip in `send_query_to_adk`:
a `requests` transport failure (network error or `raise_for_status`),
a body that fails to decode as structured data, or a decoded turn list. -/
inductive SendOutcome where
  | transportFailure
  | decodeFailure
  | success (turns : List Turn)
  deriving Repr, DecidableEq

/-- run.py lines 92-128.  Threads the registry state explicitly: on a
transport failure the function clears `user_sessions` itself (line 124). -/
def send_query_to_adk (reg : Registry) (adk_user_id adk_session_id user_message : String)
    (outcome : SendOutcome) : Registry × String :=
  match outcome with
  | SendOutcome.success turns =>
    (reg, match scanTurns turns.reverse with
          | some t => t
          | none => noModelText)
  | SendOutcome.transportFailure => (Registry.clear reg, apologyText)
  | SendOutcome.decodeFailure => (reg, parseErrorText)

/-- Outcome of the session-creation HTTP round trip in `create_adk_session`. -/
inductive CreateOutcome where
  | success
  | failure
  deriving Repr, DecidableEq

/-- run.py line 74 and line 162: the namespaced ADK user id. -/
def adkUserId (discord_user_id : String) : String := "discord_" ++ discord_user_id

/-- run.py lines 72-90.  `adk_session_id` is the generated `uuid.uuid4()`
value, passed in explicitly. -/
def create_adk_session (discord_user_id : String) (adk_session_id : String)
    (outcome : CreateOutcome) : Option String × Option String :=
  match outcome with
  | CreateOutcome.success => (some (adkUserId discord_user_id), some adk_session_id)
  | CreateOutcome.failure => (none, none)

/-- An incoming Discord message event, as consumed by `on_message`. -/
structure MessageEvent where
  fromBot : Bool
  isDM : Bool
  authorId : UserId
  content : String
  deriving Repr, DecidableEq

/-- The nondeterministic environment of one `on_message` run: the generated
session id and the outcomes of the (at most one each) create and send calls. -/
structure Env where
  freshSessionId : String
  createOutcome : CreateOutcome
  sendOutcome : SendOutcome
  deriving Repr, DecidableEq

/-- A recorded Agent Client invocation, with its arguments. -/
inductive ClientCall where
  | createSession (discord_user_id : String)
  | sendMessage (adk_user_id adk_session_id text : String)
  deriving Repr, DecidableEq

/-- Result of one `on_message` run: final registry, outbound replies in order,
Agent Client calls in order, and whether the line 181-183 fallback branch ran. -/
structure StepResult where
  registry : Registry
  replies : List String
  calls : List ClientCall
  usedFallback : Bool
  deriving Repr, DecidableEq

/-- run.py lines 181-187: the defensive session check, then the guarded send.
`current_adk_user_id` and `adk_session_id` are the Python variables at line 181
(optional strings; the guard is Python truthiness). -/
def sendPhase (reg : Registry) (env : Env) (content : String)
    (current_adk_user_id adk_session_id : Option String)
    (calls : List ClientCall) : StepResult :=
  if !truthyOpt current_adk_user_id || !truthyOpt adk_session_id then
    ⟨reg, [sessionIssueText], calls, true⟩
  else
    let cu := current_adk_user_id.getD ""
    let sid := adk_session_id.getD ""
    let res := send_query_to_adk reg cu sid content env.sendOutcome
    ⟨res.1, [res.2], calls ++ [ClientCall.sendMessage cu sid content], false⟩

/-- run.py lines 145-187: the per-message orchestrator. -/
def on_message (reg : Registry) (env : Env) (msg : MessageEvent) : StepResult :=
  if msg.fromBot then ⟨reg, [], [], false⟩
  else if !msg.isDM then ⟨reg, [], [], false⟩
  else if !truthyStr msg.content then ⟨reg, [greetingText], [], false⟩
  else
    let adk_user_id_str := adkUserId (toString msg.authorId)
    let stored := Registry.get reg msg.authorId
    if truthyOpt stored then
      sendPhase reg env msg.content (some adk_user_id_str) stored []
    else
      let created := create_adk_session (toString msg.authorId) env.freshSessionId env.createOutcome
      let calls := [ClientCall.createSession (toString msg.authorId)]
      if truthyOpt created.2 then
        sendPhase (Registry.set reg msg.authorId (created.2.getD "")) env msg.content
          created.1 created.2 calls
      else
        ⟨reg, [createFailText], calls, false⟩

/-- A turn that the scan can actually stop at: model role and a text part. -/
def turnIsModelWithText (t : Turn) : Bool :=
  turnIsModel t && (firstTextPart (turnParts t)).isSome

/-- The reading of the scan asserted by the spec sentence behind C2: locate the
most recent turn whose role is "model" and take that turn's first text part. -/
def claimedExtract (turns : List Turn) : Option String :=
  (turns.reverse.find? turnIsModel).bind (fun t => firstTextPart (turnParts t))

/-- A response whose most recent model-role turn has no text part, while an
older model-role turn does. -/
def c2Turns : List Turn :=
  [⟨some ⟨some "model", [⟨some "early"⟩]⟩⟩, ⟨some ⟨some "model", [⟨none⟩]⟩⟩]

theorem adkUserId_ne_empty (s : String) : adkUserId s ≠ "" := by
  intro h
  simp only [adkUserId] at h
  have h1 := congrArg String.length h
  rw [String.length_append] at h1
  have h2 : ("discord_" : String).length = 8 := rfl
  have h3 : ("" : String).length = 0 := rfl
  omega

theorem truthyStr_adkUserId (s : String) : truthyStr (adkUserId s) = true := by
  simp only [truthyStr, bne_iff_ne, ne_eq]
  exact adkUserId_ne_empty s

theorem truthyOpt_adkUserId (s : String) : truthyOpt (some (adkUserId s)) = true := by
  simp only [truthyOpt]
  exact truthyStr_adkUserId s

theorem truthyOpt_some (s : String) : truthyOpt (some s) = truthyStr s := rfl

theorem truthyOpt_eq_true_iff (o : Option String) :
    truthyOpt o = true ↔ ∃ s, o = some s ∧ truthyStr s = true := by
  cases o with
  | none => simp [truthyOpt]
  | some s => simp [truthyOpt]

theorem scanTurns_eq_find (l : List Turn) :
    scanTurns l = (l.find? turnIsModelWithText).bind (fun t => firstTextPart (turnParts t)) := by
  induction l with
  | nil => rfl
  | cons t ts ih =>
    by_cases hm : turnIsModel t = true
    · cases hp : firstTextPart (turnParts t) with
      | some s =>
        have hw : turnIsModelWithText t = true := by
          simp [turnIsModelWithText, hm, hp]
        simp [scanTurns, hm, hp, List.find?, hw]
      | none =>
        have hw : turnIsModelWithText t = false := by
          simp [turnIsModelWithText, hm, hp]
        simp [scanTurns, hm, hp, List.find?, hw, ih]
    · have hm' : turnIsModel t = false := by simpa using hm
      have hw : turnIsModelWithText t = false := by
        simp [turnIsModelWithText, hm']
      simp [scanTurns, hm', List.find?, hw, ih]

theorem sendPhase_no_fallback (reg : Registry) (env : Env) (content : String)
    (cu sid : Option String) (calls : List ClientCall)
    (h1 : truthyOpt cu = true) (h2 : truthyOpt sid = true) :
    (sendPhase reg env content cu sid calls).usedFallback = false := by
  simp [sendPhase, h1, h2]

theorem sendPhase_one_reply (reg : Registry) (env : Env) (content : String)
    (cu sid : Option String) (calls : List ClientCall) :
    (sendPhase reg env content cu sid calls).replies.length = 1 := by
  unfold sendPhase
  split <;> rfl

theorem sendPhase_ok (reg : Registry) (env : Env) (content : String) (cu sid : String)
    (calls : List ClientCall) (h1 : truthyStr cu = true) (h2 : truthyStr sid = true) :
    sendPhase reg env content (some cu) (some sid) calls =
      ⟨(send_query_to_adk reg cu sid content env.sendOutcome).1,
        [(send_query_to_adk reg cu sid content env.sendOutcome).2],
        calls ++ [ClientCall.sendMessage cu sid content], false⟩ := by
  unfold sendPhase
  simp only [truthyOpt_some, h1, h2, Bool.not_true, Bool.or_self, Bool.false_eq_true, if_false,
    Option.getD_some]

theorem on_message_hit (reg : Registry) (env : Env) (msg : MessageEvent)
    (hb : msg.fromBot = false) (hd : msg.isDM = true) (hct : truthyStr msg.content = true)
    (hh : truthyOpt (Registry.get reg msg.authorId) = true) :
    on_message reg env msg =
      sendPhase reg env msg.content (some (adkUserId (toString msg.authorId)))
        (Registry.get reg msg.authorId) [] := by
  unfold on_message
  simp only [hb, hd, hct, hh, Bool.not_true, Bool.not_false, Bool.false_eq_true,
    Bool.true_eq_false, if_false, if_true]

theorem on_message_miss_success (reg : Registry) (env : Env) (msg : MessageEvent)
    (hb : msg.fromBot = false) (hd : msg.isDM = true) (hct : truthyStr msg.content = true)
    (hh : truthyOpt (Registry.get reg msg.authorId) = false)
    (hcr : env.createOutcome = CreateOutcome.success)
    (hfr : truthyStr env.freshSessionId = true) :
    on_message reg env msg =
      sendPhase (Registry.set reg msg.authorId env.freshSessionId) env msg.content
        (some (adkUserId (toString msg.authorId))) (some env.freshSessionId)
        [ClientCall.createSession (toString msg.authorId)] := by
  unfold on_message
  simp only [hb, hd, hct, hh, hcr, create_adk_session, truthyOpt_some, hfr, Bool.not_true,
    Bool.not_false, Bool.false_eq_true, Bool.true_eq_false, if_false, if_true,
    Option.getD_some]

theorem on_message_miss_no_session (reg : Registry) (env : Env) (msg : MessageEvent)
    (hb : msg.fromBot = false) (hd : msg.isDM = true) (hct : truthyStr msg.content = true)
    (hh : truthyOpt (Registry.get reg msg.authorId) = false)
    (hnc : truthyOpt
        (create_adk_session (toString msg.authorId) env.freshSessionId env.createOutcome).2 =
      false) :
    on_message reg env msg =
      ⟨reg, [createFailText], [ClientCall.createSession (toString msg.authorId)], false⟩ := by
  unfold on_message
  simp only [hb, hd, hct, hh, hnc, Bool.not_true, Bool.not_false, Bool.false_eq_true,
    Bool.true_eq_false, if_false, if_true]

/-- C1: if SendMessage fails with a transport failure, then afterwards the
session registry contains no entry for any user (the whole registry is
cleared), and the reply is the fixed apology instructing the user to resend. -/
theorem transport_failure_clears_all_sessions (reg : Registry) (env : Env) (msg : MessageEvent)
    (hb : msg.fromBot = false) (hd : msg.isDM = true) (hc : msg.content ≠ "")
    (hcr : env.createOutcome = CreateOutcome.success) (hf : env.freshSessionId ≠ "")
    (hs : env.sendOutcome = SendOutcome.transportFailure) :
    (∀ u, Registry.get (on_message reg env msg).registry u = none) ∧
      (on_message reg env msg).replies = [apologyText] := by
  have hct : truthyStr msg.content = true := by
    simp [truthyStr, bne_iff_ne, hc]
  by_cases hh : truthyOpt (Registry.get reg msg.authorId) = true
  · obtain ⟨s, hsome, hts⟩ := (truthyOpt_eq_true_iff _).mp hh
    rw [on_message_hit reg env msg hb hd hct hh, hsome,
      sendPhase_ok reg env msg.content _ s [] (truthyStr_adkUserId _) hts, hs]
    exact ⟨fun u => rfl, rfl⟩
  · have hh' : truthyOpt (Registry.get reg msg.authorId) = false := by
      simpa using hh
    have hfr : truthyStr env.freshSessionId = true := by
      simp [truthyStr, bne_iff_ne, hf]
    rw [on_message_miss_success reg env msg hb hd hct hh' hcr hfr,
      sendPhase_ok _ env msg.content _ env.freshSessionId _ (truthyStr_adkUserId _) hfr, hs]
    exact ⟨fun u => rfl, rfl⟩

theorem transport_failure_clears_all_sessions_witness :
    ((⟨false, true, 7, "hi"⟩ : MessageEvent).content ≠ "") ∧
      Registry.get (on_message [(3, "sid3")]
        ⟨"s1", CreateOutcome.success, SendOutcome.transportFailure⟩
        ⟨false, true, 7, "hi"⟩).registry 3 = none ∧
      (on_message [(3, "sid3")]
        ⟨"s1", CreateOutcome.success, SendOutcome.transportFailure⟩
        ⟨false, true, 7, "hi"⟩).replies = [apologyText] :=
  ⟨by decide,
    (transport_failure_clears_all_sessions [(3, "sid3")]
      ⟨"s1", CreateOutcome.success, SendOutcome.transportFailure⟩
      ⟨false, true, 7, "hi"⟩ rfl rfl (by decide) rfl (by decide) rfl).1 3,
    (transport_failure_clears_all_sessions [(3, "sid3")]
      ⟨"s1", CreateOutcome.success, SendOutcome.transportFailure⟩
      ⟨false, true, 7, "hi"⟩ rfl rfl (by decide) rfl (by decide) rfl).2⟩

/-- C2 counterexample: on a response whose most recent model-role turn carries
no text part, the code does not take that turn's (nonexistent) first text part;
it keeps scanning and returns the text of an older model-role turn. -/
theorem backward_scan_skips_textless_model_turn :
    claimedExtract c2Turns = none ∧
      (send_query_to_adk ([] : Registry) "u" "s" "m" (SendOutcome.success c2Turns)).2 =
        "early" ∧
      "early" ≠ noModelText := by decide

/-- C2 (amended): the extracted reply is the first text part of the most recent
model-role turn that contains a text part; model-role turns without a text part
are skipped, and if no such turn exists the fixed fallback text is returned. -/
theorem reply_is_most_recent_model_turn_with_text (reg : Registry)
    (adk_user_id adk_session_id user_message : String) (turns : List Turn) :
    send_query_to_adk reg adk_user_id adk_session_id user_message
        (SendOutcome.success turns) =
      (reg, ((turns.reverse.find? turnIsModelWithText).bind
          (fun t => firstTextPart (turnParts t))).getD noModelText) := by
  simp only [send_query_to_adk, scanTurns_eq_find]
  cases (turns.reverse.find? turnIsModelWithText).bind (fun t => firstTextPart (turnParts t)) <;>
    rfl

/-- C3 counterexample: on a transport failure, `send_query_to_adk` itself does
mutate the session registry: a nonempty registry is not preserved. -/
theorem send_message_mutates_registry_counterexample :
    (send_query_to_adk [(1, "sid1")] "u" "sid1" "m" SendOutcome.transportFailure).1 ≠
      [(1, "sid1")] := by decide

/-- C3 (amended): on a transport failure the Agent Client (`send_query_to_adk`)
itself clears the entire session registry and returns the apology reply instead
of propagating a failure; the orchestrator performs no registry mutation of its
own beyond what the client call returns. -/
theorem transport_failure_recovery_in_client (reg : Registry) (env : Env) (msg : MessageEvent)
    (hb : msg.fromBot = false) (hd : msg.isDM = true) (hc : msg.content ≠ "")
    (hh : truthyOpt (Registry.get reg msg.authorId) = true) :
    (on_message reg env msg).registry =
        (send_query_to_adk reg (adkUserId (toString msg.authorId))
          ((Registry.get reg msg.authorId).getD "") msg.content env.sendOutcome).1 ∧
      send_query_to_adk reg (adkUserId (toString msg.authorId))
          ((Registry.get reg msg.authorId).getD "") msg.content
          SendOutcome.transportFailure =
        (Registry.clear reg, apologyText) := by
  have hct : truthyStr msg.content = true := by
    simp [truthyStr, bne_iff_ne, hc]
  constructor
  · simp [on_message, hb, hd, hct, hh, sendPhase, truthyOpt_adkUserId]
  · rfl

theorem transport_failure_recovery_in_client_witness :
    truthyOpt (Registry.get [(7, "sid7")] 7) = true ∧
      (on_message [(7, "sid7")] ⟨"s1", CreateOutcome.success, SendOutcome.transportFailure⟩
          ⟨false, true, 7, "hi"⟩).registry =
        (send_query_to_adk [(7, "sid7")] (adkUserId (toString (7 : UserId)))
          ((Registry.get [(7, "sid7")] 7).getD "") "hi" SendOutcome.transportFailure).1 :=
  ⟨by decide,
    (transport_failure_recovery_in_client [(7, "sid7")]
      ⟨"s1", CreateOutcome.success, SendOutcome.transportFailure⟩
      ⟨false, true, 7, "hi"⟩ rfl rfl (by decide) (by decide)).1⟩

/-- C4: when session creation fails, `create_adk_session` returns an empty
result, the orchestrator replies with the fixed message and terminates, and the
registry is not mutated; the only Agent Client call is the create call. -/
theorem create_failure_no_registration (reg : Registry) (env : Env) (msg : MessageEvent)
    (hb : msg.fromBot = false) (hd : msg.isDM = true) (hc : msg.content ≠ "")
    (hmiss : truthyOpt (Registry.get reg msg.authorId) = false)
    (hcr : env.createOutcome = CreateOutcome.failure) :
    create_adk_session (toString msg.authorId) env.freshSessionId env.createOutcome =
        (none, none) ∧
      on_message reg env msg =
        ⟨reg, [createFailText], [ClientCall.createSession (toString msg.authorId)], false⟩ := by
  have hct : truthyStr msg.content = true := by
    simp [truthyStr, bne_iff_ne, hc]
  constructor
  · rw [hcr]; rfl
  · exact on_message_miss_no_session reg env msg hb hd hct hmiss (by rw [hcr]; rfl)

theorem create_failure_no_registration_witness :
    truthyOpt (Registry.get ([] : Registry) 7) = false ∧
      on_message ([] : Registry) ⟨"s1", CreateOutcome.failure, SendOutcome.success []⟩
          ⟨false, true, 7, "hi"⟩ =
        ⟨([] : Registry), [createFailText], [ClientCall.createSession "7"], false⟩ :=
  ⟨by decide,
    (create_failure_no_registration ([] : Registry)
      ⟨"s1", CreateOutcome.failure, SendOutcome.success []⟩
      ⟨false, true, 7, "hi"⟩ rfl rfl (by decide) (by decide) rfl).2⟩

/-- C5: every processed message (not authored by the bot, in a direct-message
channel) produces exactly one outbound reply, on every path. -/
theorem exactly_one_reply (reg : Registry) (env : Env) (msg : MessageEvent)
    (hb : msg.fromBot = false) (hd : msg.isDM = true) :
    (on_message reg env msg).replies.length = 1 := by
  unfold on_message
  rw [hb, hd]
  by_cases hct : truthyStr msg.content = true
  · simp only [hct, Bool.not_true, Bool.false_eq_true, if_false, if_true]
    by_cases hh : truthyOpt (Registry.get reg msg.authorId) = true
    · simp only [hh, if_true]
      exact sendPhase_one_reply _ _ _ _ _ _
    · simp only [hh, if_false]
      by_cases hcr : truthyOpt
          (create_adk_session (toString msg.authorId) env.freshSessionId env.createOutcome).2 =
          true
      · simp only [hcr, if_true]
        exact sendPhase_one_reply _ _ _ _ _ _
      · simp only [hcr, if_false]
        rfl
  · have hct' : truthyStr msg.content = false := by simpa using hct
    simp [hct']

theorem exactly_one_reply_witness :
    ((⟨false, true, 7, "hi"⟩ : MessageEvent).fromBot = false) ∧
      (on_message ([] : Registry) ⟨"s1", CreateOutcome.success, SendOutcome.success []⟩
        ⟨false, true, 7, "hi"⟩).replies.length = 1 :=
  ⟨rfl,
    exactly_one_reply ([] : Registry) ⟨"s1", CreateOutcome.success, SendOutcome.success []⟩
      ⟨false, true, 7, "hi"⟩ rfl rfl⟩

/-- C6: if the decoded response contains no model-role turn, the fixed fallback
text is returned (the parse path is total over decoded turn lists). -/
theorem no_model_turn_fixed_reply (reg : Registry)
    (adk_user_id adk_session_id user_message : String) (turns : List Turn)
    (h : ∀ t ∈ turns, turnIsModel t = false) :
    send_query_to_adk reg adk_user_id adk_session_id user_message
        (SendOutcome.success turns) =
      (reg, noModelText) := by
  rw [reply_is_most_recent_model_turn_with_text]
  have hfind : turns.reverse.find? turnIsModelWithText = none := by
    rw [List.find?_eq_none]
    intro t ht
    have := h t (List.mem_reverse.mp ht)
    simp [turnIsModelWithText, this]
  rw [hfind]
  rfl

theorem no_model_turn_fixed_reply_witness :
    (∀ t ∈ [(⟨some ⟨some "user", [⟨some "q"⟩]⟩⟩ : Turn)], turnIsModel t = false) ∧
      send_query_to_adk ([] : Registry) "u" "s" "m"
          (SendOutcome.success [⟨some ⟨some "user", [⟨some "q"⟩]⟩⟩]) =
        (([] : Registry), noModelText) :=
  ⟨by decide,
    no_model_turn_fixed_reply ([] : Registry) "u" "s" "m"
      [⟨some ⟨some "user", [⟨some "q"⟩]⟩⟩] (by decide)⟩

/-- C7: when the user already has a registry entry, no CreateSession call is
made, SendMessage is invoked with the stored session id, and the entry can only
disappear through the global clear: the final registry is the original one or
the cleared one. -/
theorem existing_session_reused (reg : Registry) (env : Env) (msg : MessageEvent)
    (hb : msg.fromBot = false) (hd : msg.isDM = true) (hc : msg.content ≠ "")
    (hh : truthyOpt (Registry.get reg msg.authorId) = true) :
    (on_message reg env msg).calls =
        [ClientCall.sendMessage (adkUserId (toString msg.authorId))
          ((Registry.get reg msg.authorId).getD "") msg.content] ∧
      ((on_message reg env msg).registry = reg ∨
        (on_message reg env msg).registry = Registry.clear reg) := by
  have hct : truthyStr msg.content = true := by
    simp [truthyStr, bne_iff_ne, hc]
  constructor
  · simp [on_message, hb, hd, hct, hh, sendPhase, truthyOpt_adkUserId]
  · cases hso : env.sendOutcome with
    | transportFailure =>
      right
      simp [on_message, hb, hd, hct, hh, sendPhase, truthyOpt_adkUserId, hso,
        send_query_to_adk, Registry.clear]
    | decodeFailure =>
      left
      simp [on_message, hb, hd, hct, hh, sendPhase, truthyOpt_adkUserId, hso,
        send_query_to_adk]
    | success turns =>
      left
      simp [on_message, hb, hd, hct, hh, sendPhase, truthyOpt_adkUserId, hso,
        send_query_to_adk]

theorem existing_session_reused_witness :
    truthyOpt (Registry.get [(7, "sid7")] 7) = true ∧
      (on_message [(7, "sid7")] ⟨"s1", CreateOutcome.success, SendOutcome.success []⟩
          ⟨false, true, 7, "how"⟩).calls =
        [ClientCall.sendMessage (adkUserId (toString (7 : UserId)))
          ((Registry.get [(7, "sid7")] 7).getD "") "how"] :=
  ⟨by decide,
    (existing_session_reused [(7, "sid7")]
      ⟨"s1", CreateOutcome.success, SendOutcome.success []⟩
      ⟨false, true, 7, "how"⟩ rfl rfl (by decide) (by decide)).1⟩

/-- C8: an empty direct message short-circuits to the static greeting: no Agent
Client call of any kind is made and the registry is unchanged. -/
theorem empty_message_short_circuits (reg : Registry) (env : Env) (msg : MessageEvent)
    (hb : msg.fromBot = false) (hd : msg.isDM = true) (hc : msg.content = "") :
    on_message reg env msg = ⟨reg, [greetingText], [], false⟩ := by
  simp [on_message, hb, hd, hc, truthyStr]

theorem empty_message_short_circuits_witness :
    ((⟨false, true, 7, ""⟩ : MessageEvent).content = "") ∧
      on_message [(3, "sid3")] ⟨"s1", CreateOutcome.success, SendOutcome.success []⟩
          ⟨false, true, 7, ""⟩ =
        ⟨[(3, "sid3")], [greetingText], [], false⟩ :=
  ⟨rfl,
    empty_message_short_circuits [(3, "sid3")]
      ⟨"s1", CreateOutcome.success, SendOutcome.success []⟩
      ⟨false, true, 7, ""⟩ rfl rfl rfl⟩

/-- C9: `create_adk_session` always returns a consistent pair: on success both
the agent user id and the session id are present, on failure both are absent;
a mixed result never occurs. -/
theorem create_session_all_or_nothing (discord_user_id adk_session_id : String)
    (outcome : CreateOutcome) :
    ((create_adk_session discord_user_id adk_session_id outcome).1.isSome = true ∧
        (create_adk_session discord_user_id adk_session_id outcome).2.isSome = true) ∨
      ((create_adk_session discord_user_id adk_session_id outcome).1 = none ∧
        (create_adk_session discord_user_id adk_session_id outcome).2 = none) := by
  cases outcome with
  | success => exact Or.inl ⟨rfl, rfl⟩
  | failure => exact Or.inr ⟨rfl, rfl⟩

/-- C10: the defensive fallback branch of lines 181-183 is unreachable: on
every execution of the handler, for any registry, environment and message, the
branch that replies "There was an issue with your session" never runs. -/
theorem session_fallback_unreachable (reg : Registry) (env : Env) (msg : MessageEvent) :
    (on_message reg env msg).usedFallback = false := by
  cases hbv : msg.fromBot with
  | true => simp [on_message, hbv]
  | false =>
  cases hdv : msg.isDM with
  | false => simp [on_message, hbv, hdv]
  | true =>
  cases hct : truthyStr msg.content with
  | false => simp [on_message, hbv, hdv, hct]
  | true =>
  by_cases hh : truthyOpt (Registry.get reg msg.authorId) = true
  · obtain ⟨s, hsome, hts⟩ := (truthyOpt_eq_true_iff _).mp hh
    rw [on_message_hit reg env msg hbv hdv hct hh, hsome,
      sendPhase_ok reg env msg.content _ s [] (truthyStr_adkUserId _) hts]
  · have hh' : truthyOpt (Registry.get reg msg.authorId) = false := by simpa using hh
    cases hcr : env.createOutcome with
    | failure =>
      rw [on_message_miss_no_session reg env msg hbv hdv hct hh' (by rw [hcr]; rfl)]
    | success =>
      cases hfr : truthyStr env.freshSessionId with
      | true =>
        rw [on_message_miss_success reg env msg hbv hdv hct hh' hcr hfr,
          sendPhase_ok _ env msg.content _ env.freshSessionId _ (truthyStr_adkUserId _) hfr]
      | false =>
        have hnc : truthyOpt
            (create_adk_session (toString msg.authorId) env.freshSessionId
              env.createOutcome).2 = false := by
          rw [hcr]
          simp [create_adk_session, truthyOpt, hfr]
        rw [on_message_miss_no_session reg env msg hbv hdv hct hh' hnc]

end AdkRelay
